import Mathlib

/-!
Verification development for the Red-Oak Airtable serverless proxy.

The JavaScript sources (src/serverless-airtable.js and the Vercel variant at
src/unnamed/part_000) implement a paginated read-only proxy over the Airtable
REST list endpoint: a URL builder (buildAirtableURL), a single-page fetcher
(fetchPage), a pagination loop (fetchAllRecords) and an HTTP handler.
The network is abstracted as a function from request URLs to responses, and
the pagination loop is given explicit fuel: the JavaScript loop has no bound,
so a run that would not terminate is modelled as the fuel running out (result
none).  Alongside the result we keep the trace of offset arguments passed to
the page fetcher, which the source makes observable through its network calls.
-/

namespace RedOak

/-- Models JavaScript truthiness coercion for a string-or-null/undefined value
as used in the source (expressions of the form x || null, !!x and if (x)):
null/undefined and the empty string are falsy, every other string is truthy. -/
def jsTruthyOpt : Option String → Option String
  | none => none
  | some s => if s = "" then none else some s

/-- Models startsWith on character lists (the pattern is the first argument). -/
def startsWithChars : List Char → List Char → Bool
  | [], _ => true
  | _ :: _, [] => false
  | a :: as, b :: bs => a == b && startsWithChars as bs

/-- Models substring occurrence on character lists. -/
def occursIn (pat : List Char) : List Char → Bool
  | [] => pat.isEmpty
  | c :: rest => startsWithChars pat (c :: rest) || occursIn pat rest

/-- Models JavaScript String.prototype.includes, used by the handler to map an
error message to an HTTP status code. -/
def jsIncludes (s pat : String) : Bool := occursIn pat.data s.data

/-! Configuration constants, from the CONFIGURATION section of
src/serverless-airtable.js (identical values in src/unnamed/part_000). -/

/-- Table name constant (TABLE_NAME in src/serverless-airtable.js). -/
def TABLE_NAME : String := "TableName"

/-- Page size constant (PAGE_SIZE = 50 in both sources). -/
def PAGE_SIZE : Nat := 50

/-- Filter formula constant, the literal NOT({Status}='Done') with brace and
quote characters written as escapes. -/
def FILTER_FORMULA : String := "NOT(\x7bStatus\x7d=\x27Done\x27)"

/-- Sort field constant. -/
def SORT_FIELD : String := "Name"

/-- Sort direction constant. -/
def SORT_DIRECTION : String := "asc"

/-! URL construction.  The source serializes query parameters through
URLSearchParams (application/x-www-form-urlencoded) and the table name through
encodeURIComponent; both percent-encodings are modelled over UTF-8 bytes. -/

/-- Uppercase hexadecimal digit for a value below 16. -/
def hexUpperChar (n : Nat) : Char :=
  if n < 10 then Char.ofNat (48 + n) else Char.ofNat (55 + n)

/-- UTF-8 byte sequence of a character, as natural numbers below 256. -/
def utf8Bytes (c : Char) : List Nat :=
  let n := c.toNat
  if n < 128 then [n]
  else if n < 2048 then [192 + n / 64, 128 + n % 64]
  else if n < 65536 then [224 + n / 4096, 128 + (n / 64) % 64, 128 + n % 64]
  else [240 + n / 262144, 128 + (n / 4096) % 64, 128 + (n / 64) % 64, 128 + n % 64]

/-- Percent-encoding of a single byte value. -/
def percentByte (b : Nat) : String :=
  "%" ++ String.mk [hexUpperChar (b / 16), hexUpperChar (b % 16)]

/-- Characters left intact by encodeURIComponent: ASCII alphanumerics and
- _ . ! ~ * ( ) and the apostrophe (codes given numerically). -/
def isUriUnreservedCode (n : Nat) : Bool :=
  (65 ≤ n && n ≤ 90) || (97 ≤ n && n ≤ 122) || (48 ≤ n && n ≤ 57) ||
  n == 45 || n == 95 || n == 46 || n == 33 || n == 126 || n == 42 ||
  n == 39 || n == 40 || n == 41

/-- Models JavaScript encodeURIComponent over a string. -/
def encodeURIComponentStr (s : String) : String :=
  s.data.foldl
    (fun acc c =>
      if isUriUnreservedCode c.toNat then acc ++ String.mk [c]
      else acc ++ String.join ((utf8Bytes c).map percentByte)) ""

/-- Characters left intact by the URLSearchParams form serialization: ASCII
alphanumerics and * - . _ (space is handled separately). -/
def isFormUnreservedCode (n : Nat) : Bool :=
  (65 ≤ n && n ≤ 90) || (97 ≤ n && n ≤ 122) || (48 ≤ n && n ≤ 57) ||
  n == 42 || n == 45 || n == 46 || n == 95

/-- Form-urlencoded serialization of one character (space becomes +). -/
def formEncodeChar (c : Char) : String :=
  if c.toNat = 32 then "+"
  else if isFormUnreservedCode c.toNat then String.mk [c]
  else String.join ((utf8Bytes c).map percentByte)

/-- Form-urlencoded serialization of a string, as URLSearchParams does. -/
def formEncode (s : String) : String :=
  s.data.foldl (fun acc c => acc ++ formEncodeChar c) ""

/-- Models URLSearchParams.toString over an ordered key-value list. -/
def paramsToString (ps : List (String × String)) : String :=
  String.intercalate "&" (ps.map (fun p => formEncode p.1 ++ "=" ++ formEncode p.2))

/-- Query parameters appended by buildAirtableURL, in append order: the filter
formula, the sort field and direction, the page size, and, only when the
offset argument is truthy, the offset itself (src/serverless-airtable.js
lines 58-73; identical in src/unnamed/part_000). -/
def buildAirtableParams (offset : Option String) : List (String × String) :=
  [ ( "filterByFormula", FILTER_FORMULA),
    ( "sort[0][field]", SORT_FIELD),
    ( "sort[0][direction]", SORT_DIRECTION),
    ( "pageSize", toString PAGE_SIZE)] ++
  (match jsTruthyOpt offset with
   | some t => [( "offset", t)]
   | none => [])

/-- Models buildAirtableURL from src/serverless-airtable.js: the base URL
templated with the base id and the encoded table name, followed by the
serialized query parameters.  (The variant in src/unnamed/part_000 puts a
table id in the path without encodeURIComponent; the query part is
identical.) -/
def buildAirtableURL (baseId : String) (offset : Option String) : String :=
  "https://api.airtable.com/v0/" ++ baseId ++ "/" ++ encodeURIComponentStr TABLE_NAME
    ++ "?" ++ paramsToString (buildAirtableParams offset)

/-- Models the upstream fetch Response as consumed by fetchPage: the ok flag
and status of the transport response, the body text (read on the error path),
and the two JSON body fields the success path reads, each possibly absent
(data.records and data.offset).  A successful response is assumed to carry a
well-formed JSON body, as the source assumes. -/
structure NetResponse (α : Type) where
  ok : Bool
  status : Nat
  text : String
  records : Option (List α)
  offset : Option String
  deriving Repr, DecidableEq

/-- Result shape returned by fetchPage on success: the records of the page,
the normalized next offset and the hasMore flag. -/
structure PageData (α : Type) where
  records : List α
  offset : Option String
  hasMore : Bool
  deriving Repr, DecidableEq

/-- Models fetchPage from src/serverless-airtable.js lines 84-110: build the
URL, perform the network call, throw an Airtable API error message on a
non-ok response, and otherwise normalize the JSON body with records \x7c\x7c []
and offset \x7c\x7c null.  (The src/unnamed/part_000 variant differs only by
pretty-printing a JSON error body into the thrown message.) -/
def fetchPage (baseId : String) (net : String → NetResponse α) (offset : Option String) :
    Except String (PageData α) :=
  let url := buildAirtableURL baseId offset
  let response := net url
  if response.ok = false then
    Except.error ( "Airtable API error (" ++ toString response.status ++ "): " ++ response.text)
  else
    Except.ok
      { records := response.records.getD []
        offset := jsTruthyOpt response.offset
        hasMore := (jsTruthyOpt response.offset).isSome }

/-- Fuel-indexed unfolding of the do/while loop in fetchAllRecords
(src/serverless-airtable.js lines 116-143): one iteration appends the current
offset to the call trace, invokes the page fetcher, propagates an error,
appends the page records to the accumulator, and continues exactly when the
returned offset is truthy.  Fuel exhaustion (an infinite upstream chain)
yields none. -/
def fetchAllLoop (fp : Option String → Except String (PageData α)) :
    Nat → List α → Option String → List (Option String) →
    Option (Except String (List α) × List (Option String))
  | 0, _, _, _ => none
  | Nat.succ fuel, acc, offset, calls =>
    match fp offset with
    | Except.error e => some (Except.error e, calls ++ [offset])
    | Except.ok page =>
      match jsTruthyOpt page.offset with
      | none => some (Except.ok (acc ++ page.records), calls ++ [offset])
      | some t => fetchAllLoop fp fuel (acc ++ page.records) (some t) (calls ++ [offset])

/-- Models fetchAllRecords: run the pagination loop from an empty accumulator
and a null offset, returning the outcome together with the trace of offset
arguments passed to the page fetcher. -/
def fetchAllRecords (fp : Option String → Except String (PageData α)) (fuel : Nat) :
    Option (Except String (List α) × List (Option String)) :=
  fetchAllLoop fp fuel [] none []

/-- Raw environment configuration: the three process.env values read by the
handler, each possibly unset. -/
structure Env where
  apiKey : Option String
  baseId : Option String
  tableId : Option String
  deriving Repr, DecidableEq

/-- Models the constant AIRTABLE_TABLE_ID of src/unnamed/part_000: the
environment value when truthy, otherwise the hardcoded fallback table id. -/
def AIRTABLE_TABLE_ID (env : Env) : String :=
  (jsTruthyOpt env.tableId).getD "tblDrUWfwkwMQM9yR"

/-- JSON response bodies produced by the handler: the success shape (success
true together with the record list, its length, and the table, filter and
sort configuration) and the failure shape (success false with an error
category and a message).  The development-only stack field, guarded by
NODE_ENV, is omitted (NODE_ENV is taken to be a production value). -/
inductive Body (α : Type) where
  | ok (records : List α) (totalRecords : Nat) (table : String) (filter : String)
      (sortField : String) (sortDirection : String)
  | err (error : String) (message : String)
  deriving Repr, DecidableEq

/-- Response of one handler invocation: the HTTP status and the JSON body
(none for the bodyless res.end of the OPTIONS branch). -/
structure HandlerResult (α : Type) where
  status : Nat
  body : Option (Body α)
  deriving Repr, DecidableEq

/-- Models the statusCode and errorType cascade of the handler error branch
(src/unnamed/part_000 lines 489-507): substring tests on the error message,
in order, choosing the caller-facing status code and error category. -/
def errorStatusCategory (e : String) : Nat × String :=
  if jsIncludes e "401" || jsIncludes e "Unauthorized" then (401, "Authentication error")
  else if jsIncludes e "403" || jsIncludes e "Forbidden" then (403, "Permission denied")
  else if jsIncludes e "404" || jsIncludes e "Not Found" then (404, "Resource not found")
  else if jsIncludes e "422" || jsIncludes e "Unprocessable" then (422, "Invalid request")
  else if jsIncludes e "429" || jsIncludes e "Too Many Requests" then (429, "Rate limit exceeded")
  else (500, "Internal server error")

/-- Models the handler of src/unnamed/part_000 lines 395-522 (the variant
whose error branch assigns category names, which the companion
src/serverless-airtable.js handler replaces by a fixed error string and no
429 case): answer OPTIONS with an empty 200; reject non-GET methods with 405;
fail with 500 when a required configuration value is not truthy; otherwise
run fetchAllRecords and return either the success body or the error body
whose status code and category are chosen by substring tests on the error
message.  The page fetcher stands for the composition of fetchPage with the
network; the returned trace lists the page fetches performed. -/
def handler (env : Env) (fp : Option String → Except String (PageData α)) (fuel : Nat)
    (method : String) : Option (HandlerResult α × List (Option String)) :=
  if method = "OPTIONS" then
    some (⟨200, none⟩, [])
  else if method ≠ "GET" then
    some (⟨405, some (Body.err "Method not allowed" "Only GET requests are supported")⟩, [])
  else if (jsTruthyOpt env.apiKey).isNone then
    some (⟨500, some (Body.err "Server configuration error"
      "AIRTABLE_API_KEY environment variable is not set")⟩, [])
  else if (jsTruthyOpt env.baseId).isNone then
    some (⟨500, some (Body.err "Server configuration error"
      "AIRTABLE_BASE_ID environment variable is not set")⟩, [])
  else if AIRTABLE_TABLE_ID env = "" then
    some (⟨500, some (Body.err "Server configuration error"
      "AIRTABLE_TABLE_ID environment variable is not set")⟩, [])
  else
    match fetchAllRecords fp fuel with
    | none => none
    | some (Except.ok records, calls) =>
      some (⟨200, some (Body.ok records records.length (AIRTABLE_TABLE_ID env)
        FILTER_FORMULA SORT_FIELD SORT_DIRECTION)⟩, calls)
    | some (Except.error e, calls) =>
      let sc : Nat × String := errorStatusCategory e
      some (⟨sc.1, some (Body.err sc.2 e)⟩, calls)

/-! Specification-side descriptions of upstream page sequences.  A chain is a
finite sequence of pages, each a record list together with the continuation
token the page fetcher reports for it: every page except the last carries a
present non-empty token under which the fetcher serves the following page,
and the last page carries an absent token. -/

/-- Chain fp o ps states that, starting from offset o, the page fetcher fp
serves exactly the pages ps: each non-final page succeeds with a non-empty
continuation token that keys the next page, and the final page succeeds with
an absent token. -/
inductive Chain (fp : Option String → Except String (PageData α)) :
    Option String → List (List α × Option String) → Prop
  | last (o : Option String) (recs : List α) (b : Bool)
      (h : fp o = Except.ok ⟨recs, none, b⟩) :
      Chain fp o [(recs, none)]
  | cons (o : Option String) (recs : List α) (t : String) (b : Bool)
      (rest : List (List α × Option String)) (ht : t ≠ "")
      (h : fp o = Except.ok ⟨recs, some t, b⟩) (hrest : Chain fp (some t) rest) :
      Chain fp o ((recs, some t) :: rest)

/-- FailsAt fp o k e states that, starting from offset o, the first k - 1
calls to the page fetcher succeed with non-empty continuation tokens and the
k-th call fails with error e. -/
inductive FailsAt (fp : Option String → Except String (PageData α)) :
    Option String → Nat → String → Prop
  | here (o : Option String) (e : String) (h : fp o = Except.error e) :
      FailsAt fp o 1 e
  | step (o : Option String) (recs : List α) (t : String) (b : Bool) (k : Nat) (e : String)
      (ht : t ≠ "") (h : fp o = Except.ok ⟨recs, some t, b⟩)
      (hrest : FailsAt fp (some t) k e) :
      FailsAt fp o (k + 1) e

/-- Offset trace generated by walking a chain from a starting offset: the
start offset, then each page's token while tokens remain present. -/
def chainTrace (o : Option String) : List (List α × Option String) → List (Option String)
  | [] => []
  | p :: rest =>
    o :: (match p.2 with
          | none => []
          | some t => chainTrace (some t) rest)

/-! Helper lemmas about the truthiness coercion, chains and the pagination
loop.  These are shared by several of the claim theorems below. -/

/-- A truthy string value is the underlying string, which is non-empty. -/
theorem jsTruthyOpt_eq_some {o : Option String} {t : String}
    (h : jsTruthyOpt o = some t) : o = some t ∧ t ≠ "" := by
  cases o with
  | none => simp [jsTruthyOpt] at h
  | some s =>
    by_cases hs : s = ""
    · simp [jsTruthyOpt, hs] at h
    · simp [jsTruthyOpt, hs] at h
      exact ⟨by rw [h], h ▸ hs⟩

/-- A chain always contains at least one page. -/
theorem chain_ne_nil {α : Type} {fp : Option String → Except String (PageData α)}
    {o : Option String} {ps : List (List α × Option String)}
    (h : Chain fp o ps) : ps ≠ [] := by
  cases h <;> simp

/-- Walking a chain of n pages with at least n fuel: the loop returns the
accumulator followed by the concatenation of the chain's record lists, and
extends the call trace by the chain's offset trace. -/
theorem fetchAllLoop_chain {α : Type} {fp : Option String → Except String (PageData α)}
    {o : Option String} {ps : List (List α × Option String)} (h : Chain fp o ps) :
    ∀ fuel, ps.length ≤ fuel → ∀ acc calls,
      fetchAllLoop fp fuel acc o calls =
        some (Except.ok (acc ++ (ps.map Prod.fst).flatten), calls ++ chainTrace o ps) := by
  induction h with
  | last o recs b hfp =>
    intro fuel hf acc calls
    match fuel, hf with
    | Nat.succ m, _ =>
      simp [fetchAllLoop, hfp, jsTruthyOpt, chainTrace]
  | cons o recs t b rest ht hfp hrest ih =>
    intro fuel hf acc calls
    match fuel, hf with
    | Nat.succ m, hf =>
      have hm : rest.length ≤ m := by
        simpa using hf
      have hrec := ih m hm (acc ++ recs) (calls ++ [o])
      simp [fetchAllLoop, hfp, jsTruthyOpt, ht, hrec, chainTrace]

/-- The offset trace of a chain is the starting offset followed by the tokens
of every page but the last. -/
theorem chainTrace_of_chain {α : Type} {fp : Option String → Except String (PageData α)}
    {o : Option String} {ps : List (List α × Option String)} (h : Chain fp o ps) :
    chainTrace o ps = o :: ps.dropLast.map Prod.snd := by
  induction h with
  | last o recs b hfp => simp [chainTrace]
  | cons o recs t b rest ht hfp hrest ih =>
    obtain ⟨p, rest2, rfl⟩ : ∃ p rest2, rest = p :: rest2 := by
      cases hrest with
      | last o2 r2 b2 h2 => exact ⟨_, _, rfl⟩
      | cons o2 r2 t2 b2 rest2 ht2 h2 hr2 => exact ⟨_, _, rfl⟩
    simp only [chainTrace] at ih ⊢
    rw [ih]
    simp [List.dropLast]

/-- Walking a failing prefix of k pages with at least k fuel: the loop fails
with the k-th page's error after exactly k calls. -/
theorem fetchAllLoop_failsAt {α : Type} {fp : Option String → Except String (PageData α)}
    {o : Option String} {k : Nat} {e : String} (h : FailsAt fp o k e) :
    ∀ fuel, k ≤ fuel → ∀ acc calls, ∃ tr,
      fetchAllLoop fp fuel acc o calls = some (Except.error e, calls ++ tr) ∧
        tr.length = k := by
  induction h with
  | here o e hfp =>
    intro fuel hf acc calls
    match fuel, hf with
    | Nat.succ m, _ =>
      exact ⟨[o], by simp [fetchAllLoop, hfp], rfl⟩
  | step o recs t b k e ht hfp hrest ih =>
    intro fuel hf acc calls
    match fuel, hf with
    | Nat.succ m, hf =>
      have hm : k ≤ m := by omega
      obtain ⟨tr, htr, hlen⟩ := ih m hm (acc ++ recs) (calls ++ [o])
      refine ⟨o :: tr, ?_, by simp [hlen]⟩
      simp [fetchAllLoop, hfp, jsTruthyOpt, ht, htr]

/-- Every offset in the call trace of a completed loop is either an offset
of the initial trace, the starting offset, or a non-empty continuation
token. -/
theorem fetchAllLoop_mem_calls {α : Type} (fp : Option String → Except String (PageData α)) :
    ∀ fuel acc o calls r, fetchAllLoop fp fuel acc o calls = some r →
      ∀ x ∈ r.2, x ∈ calls ∨ x = o ∨ ∃ t, x = some t ∧ t ≠ "" := by
  intro fuel
  induction fuel with
  | zero =>
    intro acc o calls r hr
    simp [fetchAllLoop] at hr
  | succ m ih =>
    intro acc o calls r hr x hx
    rw [fetchAllLoop] at hr
    cases hfp : fp o with
    | error e =>
      rw [hfp] at hr
      simp at hr
      rw [← hr] at hx
      rcases List.mem_append.1 hx with h1 | h1
      · exact Or.inl h1
      · exact Or.inr (Or.inl (by simpa using h1))
    | ok page =>
      rw [hfp] at hr
      cases hto : jsTruthyOpt page.offset with
      | none =>
        simp [hto] at hr
        rw [← hr] at hx
        rcases List.mem_append.1 hx with h1 | h1
        · exact Or.inl h1
        · exact Or.inr (Or.inl (by simpa using h1))
      | some t =>
        simp [hto] at hr
        obtain ⟨hot, ht⟩ := jsTruthyOpt_eq_some hto
        rcases ih (acc ++ page.records) (some t) (calls ++ [o]) r hr x hx with h1 | h1 | h1
        · rcases List.mem_append.1 h1 with h2 | h2
          · exact Or.inl h2
          · exact Or.inr (Or.inl (by simpa using h2))
        · exact Or.inr (Or.inr ⟨t, h1, ht⟩)
        · exact Or.inr (Or.inr h1)

/-! Example page fetchers and environments used by the witness theorems. -/

/-- Example page fetcher serving a three-page chain. -/
def chainFpA : Option String → Except String (PageData Nat)
  | none => Except.ok ⟨[1, 2], some "tokA", true⟩
  | some s =>
    if s = "tokA" then Except.ok ⟨[3], some "tokB", true⟩
    else if s = "tokB" then Except.ok ⟨[4, 5], none, false⟩
    else Except.error "unexpected offset"

/-- The page list served by chainFpA. -/
def psA : List (List Nat × Option String) :=
  [([1, 2], some "tokA"), ([3], some "tokB"), ([4, 5], none)]

/-- chainFpA serves psA as a chain from the initial null offset. -/
theorem chainA : Chain chainFpA none psA := by
  refine Chain.cons none [1, 2] "tokA" true _ (by decide) rfl ?_
  refine Chain.cons (some "tokA") [3] "tokB" true _ (by decide) rfl ?_
  exact Chain.last (some "tokB") [4, 5] false rfl

/-- Example page fetcher serving a single page with no records and no token. -/
def chainFpB : Option String → Except String (PageData Nat)
  | none => Except.ok ⟨[], none, false⟩
  | some _ => Except.error "unexpected offset"

/-- Example page fetcher failing on the very first call. -/
def failFirstFp : Option String → Except String (PageData Nat) :=
  fun _ => Except.error "upstream failure"

/-- Example page fetcher succeeding once and failing on the second call. -/
def failSecondFp : Option String → Except String (PageData Nat)
  | none => Except.ok ⟨[7], some "tokC", true⟩
  | some _ => Except.error "boom"

/-- C1: for every finite sequence of upstream pages P1..Pn, each a record
list plus an optional continuation token with the last token absent, the
full-collection fetcher returns exactly the concatenation of the pages'
records in page order and within-page order, with no re-sorting,
deduplication or other transformation. -/
theorem fetchAllRecords_concat_of_chain {α : Type}
    {fp : Option String → Except String (PageData α)}
    {ps : List (List α × Option String)} (h : Chain fp none ps)
    (fuel : Nat) (hf : ps.length ≤ fuel) :
    ∃ calls, fetchAllRecords fp fuel =
      some (Except.ok ((ps.map Prod.fst).flatten), calls) :=
  ⟨chainTrace none ps, by simpa [fetchAllRecords] using fetchAllLoop_chain h fuel hf [] []⟩

/-- Witness for C1 on the concrete three-page chain. -/
theorem fetchAllRecords_concat_of_chain_witness :
    ∃ calls, fetchAllRecords chainFpA 3 = some (Except.ok [1, 2, 3, 4, 5], calls) := by
  have h := fetchAllRecords_concat_of_chain chainA 3 (by decide)
  simpa [psA] using h

/-- C3 counterexample: when the first page fetch fails, one call has been
made, not zero as the claim's count k - 1 = 0 would require. -/
theorem fetchAllRecords_first_error_one_call_cex :
    failFirstFp none = Except.error "upstream failure" ∧
    fetchAllRecords failFirstFp 5 = some (Except.error "upstream failure", [none]) ∧
    ([none] : List (Option String)).length = 1 ∧ (1 : Nat) ≠ 1 - 1 :=
  ⟨rfl, rfl, rfl, by decide⟩

/-- C3 as amended: if the k-th call to the page fetcher returns an upstream
error, the overall operation fails with that same error and no further calls
are made, so exactly k calls are made in total rather than n. -/
theorem fetchAllRecords_error_after_k_calls {α : Type}
    {fp : Option String → Except String (PageData α)} {k : Nat} {e : String}
    (h : FailsAt fp none k e) (fuel : Nat) (hf : k ≤ fuel) :
    ∃ calls, fetchAllRecords fp fuel = some (Except.error e, calls) ∧
      calls.length = k := by
  obtain ⟨tr, htr, hlen⟩ := fetchAllLoop_failsAt h fuel hf [] []
  exact ⟨tr, by simpa [fetchAllRecords] using htr, hlen⟩

/-- Witness for the amended C3: a failure on the second call stops the loop
after exactly two calls, carrying the second call's error. -/
theorem fetchAllRecords_error_after_k_calls_witness :
    ∃ calls, fetchAllRecords failSecondFp 5 = some (Except.error "boom", calls) ∧
      calls.length = 2 := by
  refine fetchAllRecords_error_after_k_calls ?_ 5 (by decide)
  exact FailsAt.step none [7] "tokC" true 1 "boom" (by decide) rfl
    (FailsAt.here (some "tokC") "boom" rfl)

/-- C4: the offset argument of call i + 1 is byte for byte the token returned
by call i (the trace is the null start offset followed by the tokens of all
pages but the last), and the URL builder appends a provided token to the
query parameters untransformed. -/
theorem fetchAllRecords_token_passthrough {α : Type}
    {fp : Option String → Except String (PageData α)}
    {ps : List (List α × Option String)} (h : Chain fp none ps)
    (fuel : Nat) (hf : ps.length ≤ fuel) :
    (∃ result, fetchAllRecords fp fuel =
      some (result, none :: ps.dropLast.map Prod.snd)) ∧
    ∀ t, t ≠ "" →
      buildAirtableParams (some t) = buildAirtableParams none ++ [( "offset", t)] := by
  constructor
  · refine ⟨Except.ok ((ps.map Prod.fst).flatten), ?_⟩
    have hmain := fetchAllLoop_chain h fuel hf [] []
    rw [← chainTrace_of_chain h]
    simpa [fetchAllRecords] using hmain
  · intro t ht
    simp [buildAirtableParams, jsTruthyOpt, ht]

/-- Witness for C4 on the concrete three-page chain: the second and third
calls carry tokA and tokB respectively, and tokA is appended verbatim to the
query parameters. -/
theorem fetchAllRecords_token_passthrough_witness :
    (∃ result, fetchAllRecords chainFpA 3 =
      some (result, [none, some "tokA", some "tokB"])) ∧
    buildAirtableParams (some "tokA") = buildAirtableParams none ++ [( "offset", "tokA")] := by
  have h := fetchAllRecords_token_passthrough chainA 3 (by decide)
  exact ⟨by simpa [psA] using h.1, h.2 "tokA" (by decide)⟩

/-- C5: a finite chain of n pages whose last token is absent makes the
full-collection fetcher terminate after exactly n page-fetcher calls, and at
least one call is always made. -/
theorem fetchAllRecords_terminates_n_calls {α : Type}
    {fp : Option String → Except String (PageData α)}
    {ps : List (List α × Option String)} (h : Chain fp none ps)
    (fuel : Nat) (hf : ps.length ≤ fuel) :
    ∃ r, fetchAllRecords fp fuel = some r ∧ r.2.length = ps.length ∧
      1 ≤ r.2.length := by
  have hmain := fetchAllLoop_chain h fuel hf [] []
  have hne : ps ≠ [] := chain_ne_nil h
  have hpos : 1 ≤ ps.length := List.length_pos.2 hne
  have hlen : (chainTrace none ps).length = ps.length := by
    rw [chainTrace_of_chain h]
    simp [List.length_dropLast]
    omega
  refine ⟨(Except.ok ((ps.map Prod.fst).flatten), chainTrace none ps),
    by simpa [fetchAllRecords] using hmain, hlen, ?_⟩
  rw [hlen]
  exact hpos

/-- Witness for C5: a single page with no token terminates after exactly one
call. -/
theorem fetchAllRecords_terminates_n_calls_witness :
    ∃ r, fetchAllRecords chainFpB 1 = some r ∧ r.2.length = 1 ∧ 1 ≤ r.2.length := by
  have hb : Chain chainFpB none [(([] : List Nat), (none : Option String))] :=
    Chain.last none [] false rfl
  have h := fetchAllRecords_terminates_n_calls hb 1 (by decide)
  simpa using h

/-- The effective table id is never the empty string: the environment value
is only used when truthy and the hardcoded fallback is non-empty. -/
theorem tableId_ne_empty (env : Env) : AIRTABLE_TABLE_ID env ≠ "" := by
  unfold AIRTABLE_TABLE_ID
  cases hto : jsTruthyOpt env.tableId with
  | none => simp
  | some t =>
    simpa using (jsTruthyOpt_eq_some hto).2

/-- Example environment with both credentials present. -/
def envA : Env := ⟨some "key", some "base", none⟩

/-- Example page fetcher failing with a message that names no numeric status
code, only the reason phrase Forbidden. -/
def forbiddenFp : Option String → Except String (PageData Nat) :=
  fun _ => Except.error "Forbidden"

/-- Example page fetcher failing with a rate-limit error message. -/
def rateFp : Option String → Except String (PageData Nat) :=
  fun _ => Except.error "Airtable API error (429): Too Many Requests"

/-- C2 counterexample: a failure whose detail contains none of the substrings
401, 403, 404, 422, 429 is mapped to status 403 with category Permission
denied, because the handler also matches the reason phrase Forbidden; the
claim requires status 500 for such a detail. -/
theorem handler_word_substring_cex :
    handler envA forbiddenFp 5 "GET" =
      some (⟨403, some (Body.err "Permission denied" "Forbidden")⟩, [none]) ∧
    jsIncludes "Forbidden" "401" = false ∧ jsIncludes "Forbidden" "403" = false ∧
    jsIncludes "Forbidden" "404" = false ∧ jsIncludes "Forbidden" "422" = false ∧
    jsIncludes "Forbidden" "429" = false ∧ (403 : Nat) ≠ 500 := by
  refine ⟨by decide, by decide, by decide, by decide, by decide, by decide, by decide⟩

/-- C2 as amended: on every failed invocation the body is the failure shape
(success false, a category and the detail) and the status and category are
chosen by substring matching on the detail, testing in order 401 or
Unauthorized, 403 or Forbidden, 404 or Not Found, 422 or Unprocessable, 429
or Too Many Requests, with any other detail mapped to 500 and category
Internal server error. -/
theorem handler_error_response_mapping {α : Type} (env : Env)
    (fp : Option String → Except String (PageData α)) (fuel : Nat) (e : String)
    (calls : List (Option String))
    (hkey : (jsTruthyOpt env.apiKey).isSome) (hbase : (jsTruthyOpt env.baseId).isSome)
    (hrun : fetchAllRecords fp fuel = some (Except.error e, calls)) :
    ∃ sc : Nat × String,
      handler env fp fuel "GET" = some (⟨sc.1, some (Body.err sc.2 e)⟩, calls) ∧
      sc = (if jsIncludes e "401" || jsIncludes e "Unauthorized" then
              ((401 : Nat), "Authentication error")
            else if jsIncludes e "403" || jsIncludes e "Forbidden" then
              (403, "Permission denied")
            else if jsIncludes e "404" || jsIncludes e "Not Found" then
              (404, "Resource not found")
            else if jsIncludes e "422" || jsIncludes e "Unprocessable" then
              (422, "Invalid request")
            else if jsIncludes e "429" || jsIncludes e "Too Many Requests" then
              (429, "Rate limit exceeded")
            else (500, "Internal server error")) := by
  obtain ⟨k, hk⟩ := Option.isSome_iff_exists.1 hkey
  obtain ⟨b, hb⟩ := Option.isSome_iff_exists.1 hbase
  refine ⟨errorStatusCategory e, ?_, by simp [errorStatusCategory]⟩
  simp [handler, hk, hb, hrun, tableId_ne_empty env]

/-- Witness for the amended C2: a 429 error detail is mapped to status 429
and category Rate limit exceeded. -/
theorem handler_error_response_mapping_witness :
    ∃ sc : Nat × String,
      handler envA rateFp 3 "GET" = some (⟨sc.1,
        some (Body.err sc.2 "Airtable API error (429): Too Many Requests")⟩, [none]) ∧
      sc = (429, "Rate limit exceeded") := by
  obtain ⟨sc, h1, h2⟩ := handler_error_response_mapping envA rateFp 3
    "Airtable API error (429): Too Many Requests" [none] (by decide) (by decide) rfl
  refine ⟨sc, h1, ?_⟩
  rw [h2]
  decide

/-- Example page fetcher that succeeds on page one with a token and fails
with a rate-limit error when asked for page two. -/
def partialFailFp : Option String → Except String (PageData Nat)
  | none => Except.ok ⟨[10], some "tokA", true⟩
  | some _ => Except.error "Airtable API error (429): rate limited"

/-- C6: when any page fetch fails, the handler answers with the failure body
carrying only a category and the error detail — a shape with no records
field — so records accumulated from earlier successful pages are discarded
and the caller never receives a partial collection. -/
theorem handler_error_discards_records {α : Type} (env : Env)
    (fp : Option String → Except String (PageData α)) (fuel : Nat) (e : String)
    (calls : List (Option String))
    (hkey : (jsTruthyOpt env.apiKey).isSome) (hbase : (jsTruthyOpt env.baseId).isSome)
    (hrun : fetchAllRecords fp fuel = some (Except.error e, calls)) :
    ∃ sc cat, handler env fp fuel "GET" = some (⟨sc, some (Body.err cat e)⟩, calls) ∧
      ∀ (recs : List α) n tb fl sf sd, (Body.err cat e : Body α) ≠ Body.ok recs n tb fl sf sd := by
  obtain ⟨k, hk⟩ := Option.isSome_iff_exists.1 hkey
  obtain ⟨b, hb⟩ := Option.isSome_iff_exists.1 hbase
  refine ⟨(errorStatusCategory e).1, (errorStatusCategory e).2, ?_,
    by intro recs n tb fl sf sd hcontra; cases hcontra⟩
  simp [handler, hk, hb, hrun, tableId_ne_empty env]

/-- Witness for C6: the records of the successful first page are absent from
the 429 error response produced when the second page fails. -/
theorem handler_error_discards_records_witness :
    ∃ sc cat, handler envA partialFailFp 5 "GET" =
      some (⟨sc, some (Body.err cat "Airtable API error (429): rate limited")⟩,
        [none, some "tokA"]) ∧
      ∀ (recs : List Nat) n tb fl sf sd,
        (Body.err cat "Airtable API error (429): rate limited" : Body Nat) ≠
          Body.ok recs n tb fl sf sd :=
  handler_error_discards_records envA partialFailFp 5
    "Airtable API error (429): rate limited" [none, some "tokA"]
    (by decide) (by decide) rfl

/-- C7: a successful upstream response with no records field yields an empty
record sequence, one with no offset field yields an absent token, and a
single such page makes the full-collection fetcher return an empty
collection and the handler answer 200 with totalRecords 0, not an error. -/
theorem fetchPage_defaults_empty_page {α : Type} (baseId : String)
    (net : String → NetResponse α) (o : Option String) (st : Nat) (tx : String)
    (recsJ : Option (List α)) (offJ : Option String)
    (hnet : net (buildAirtableURL baseId o) = ⟨true, st, tx, recsJ, offJ⟩) :
    (recsJ = none → ∃ d, fetchPage baseId net o = Except.ok d ∧ d.records = []) ∧
    (offJ = none → ∃ d, fetchPage baseId net o = Except.ok d ∧ d.offset = none) ∧
    (recsJ = none → offJ = none → o = none → ∀ env fuel, 1 ≤ fuel →
      (jsTruthyOpt env.apiKey).isSome → (jsTruthyOpt env.baseId).isSome →
      fetchAllRecords (fetchPage baseId net) fuel = some (Except.ok [], [none]) ∧
      handler env (fetchPage baseId net) fuel "GET" =
        some (⟨200, some (Body.ok [] 0 (AIRTABLE_TABLE_ID env) FILTER_FORMULA SORT_FIELD
          SORT_DIRECTION)⟩, [none])) := by
  refine ⟨?_, ?_, ?_⟩
  · intro hrecs
    subst hrecs
    exact ⟨⟨[], jsTruthyOpt offJ, (jsTruthyOpt offJ).isSome⟩,
      by simp [fetchPage, hnet], rfl⟩
  · intro hoff
    subst hoff
    exact ⟨⟨recsJ.getD [], none, false⟩,
      by simp [fetchPage, hnet, jsTruthyOpt], rfl⟩
  · intro hrecs hoff ho env fuel hfuel hkey hbase
    subst hrecs
    subst hoff
    subst ho
    obtain ⟨k, hk⟩ := Option.isSome_iff_exists.1 hkey
    obtain ⟨b, hb⟩ := Option.isSome_iff_exists.1 hbase
    have hp : fetchPage baseId net none = Except.ok ⟨[], none, false⟩ := by
      simp [fetchPage, hnet, jsTruthyOpt]
    have hall : fetchAllRecords (fetchPage baseId net) fuel =
        some (Except.ok [], [none]) := by
      match fuel, hfuel with
      | Nat.succ m, _ => simp [fetchAllRecords, fetchAllLoop, hp, jsTruthyOpt]
    refine ⟨hall, ?_⟩
    simp [handler, hk, hb, hall, tableId_ne_empty env]

/-- Example network always answering 200 with a JSON body that has neither a
records nor an offset field. -/
def bareNet : String → NetResponse Nat := fun _ => ⟨true, 200, "", none, none⟩

/-- Witness for C7 on the concrete bare network. -/
theorem fetchPage_defaults_empty_page_witness :
    fetchAllRecords (fetchPage "appB" bareNet) 2 = some (Except.ok [], [none]) ∧
    handler envA (fetchPage "appB" bareNet) 2 "GET" =
      some (⟨200, some (Body.ok [] 0 (AIRTABLE_TABLE_ID envA) FILTER_FORMULA SORT_FIELD
        SORT_DIRECTION)⟩, [none]) :=
  (fetchPage_defaults_empty_page "appB" bareNet none 200 "" none none rfl).2.2
    rfl rfl rfl envA 2 (by decide) (by decide) (by decide)

/-- C8: the request URL places the encoded collection identifier in the path,
its query carries the fixed filter formula, the fixed sort field and
direction, and a page size within the upstream maximum of 100, and the offset
parameter is present exactly when a (non-empty) token was provided. -/
theorem buildAirtableURL_query_components (baseId : String) (o : Option String)
    (ho : ∀ t, o = some t → t ≠ "") :
    buildAirtableURL baseId o =
      "https://api.airtable.com/v0/" ++ baseId ++ "/" ++ encodeURIComponentStr TABLE_NAME
        ++ "?" ++ paramsToString (buildAirtableParams o) ∧
    ( "filterByFormula", FILTER_FORMULA) ∈ buildAirtableParams o ∧
    ( "sort[0][field]", SORT_FIELD) ∈ buildAirtableParams o ∧
    ( "sort[0][direction]", SORT_DIRECTION) ∈ buildAirtableParams o ∧
    ( "pageSize", toString PAGE_SIZE) ∈ buildAirtableParams o ∧
    PAGE_SIZE ≤ 100 ∧
    ((∃ v, ( "offset", v) ∈ buildAirtableParams o) ↔ o ≠ none) := by
  refine ⟨rfl, by simp [buildAirtableParams], by simp [buildAirtableParams],
    by simp [buildAirtableParams], by simp [buildAirtableParams], by decide, ?_⟩
  cases o with
  | none =>
    simp [buildAirtableParams, jsTruthyOpt]
  | some t =>
    have ht : t ≠ "" := ho t rfl
    simp [buildAirtableParams, jsTruthyOpt, ht]

/-- Witness for C8 with a concrete non-empty token. -/
theorem buildAirtableURL_query_components_witness :
    PAGE_SIZE ≤ 100 ∧ ∃ v, ( "offset", v) ∈ buildAirtableParams (some "itrTok") := by
  have h := buildAirtableURL_query_components "appBase" (some "itrTok")
    (by intro t ht; injection ht with h2; subst h2; decide)
  exact ⟨h.2.2.2.2.2.1, h.2.2.2.2.2.2.2 (by simp)⟩

/-- C9: a non-GET, non-OPTIONS request is answered 405 with no page fetch; an
OPTIONS preflight request is answered with an empty 200; and a GET request
with the API key or base id configuration absent is answered 500 with the
server configuration category, again with no page fetch. -/
theorem handler_method_and_config {α : Type} (env : Env)
    (fp : Option String → Except String (PageData α)) (fuel : Nat) (method : String) :
    (method ≠ "GET" → method ≠ "OPTIONS" →
      handler env fp fuel method =
        some (⟨405, some (Body.err "Method not allowed"
          "Only GET requests are supported")⟩, [])) ∧
    (method = "OPTIONS" → handler env fp fuel method = some (⟨200, none⟩, [])) ∧
    ((env.apiKey = none ∨ env.baseId = none) → method = "GET" →
      ∃ msg, handler env fp fuel method =
        some (⟨500, some (Body.err "Server configuration error" msg)⟩, [])) := by
  refine ⟨?_, ?_, ?_⟩
  · intro hg ho
    simp [handler, ho, hg]
  · intro ho
    simp [handler, ho]
  · intro hcfg hm
    subst hm
    rcases hq : jsTruthyOpt env.apiKey with _ | k
    · exact ⟨ "AIRTABLE_API_KEY environment variable is not set", by simp [handler, hq]⟩
    · rcases hcfg with hc | hc
      · rw [hc] at hq
        simp [jsTruthyOpt] at hq
      · have hq2 : (jsTruthyOpt env.apiKey).isNone = false := by rw [hq]; rfl
        have hb2 : jsTruthyOpt env.baseId = none := by rw [hc]; rfl
        exact ⟨ "AIRTABLE_BASE_ID environment variable is not set",
          by simp [handler, hq2, hb2]⟩

/-- Example environment with the API key missing. -/
def envMissing : Env := ⟨none, some "base", none⟩

/-- Example page fetcher that always fails, for invocations whose claim is
that no page fetch happens. -/
def fpDummy : Option String → Except String (PageData Nat) :=
  fun _ => Except.error "must not be called"

/-- Witness for C9: a POST request, an OPTIONS request, and a GET request
against a configuration with no API key. -/
theorem handler_method_and_config_witness :
    handler envMissing fpDummy 1 "POST" =
      some (⟨405, some (Body.err "Method not allowed"
        "Only GET requests are supported")⟩, []) ∧
    handler envMissing fpDummy 1 "OPTIONS" = some (⟨200, none⟩, []) ∧
    ∃ msg, handler envMissing fpDummy 1 "GET" =
      some (⟨500, some (Body.err "Server configuration error" msg)⟩, []) :=
  ⟨(handler_method_and_config envMissing fpDummy 1 "POST").1 (by decide) (by decide),
   (handler_method_and_config envMissing fpDummy 1 "OPTIONS").2.1 rfl,
   (handler_method_and_config envMissing fpDummy 1 "GET").2.2 (Or.inl rfl) rfl⟩

/-- C10: an empty-string offset field in a successful upstream body is
normalized to an absent token by the page fetcher, the pagination loop then
stops after that single page, the call trace of any completed run never
carries an empty-string token, and an empty-string token is never placed in
the request query parameters. -/
theorem emptyString_offset_terminates {α : Type} (baseId : String)
    (net : String → NetResponse α) (recs : List α) (st : Nat) (tx : String)
    (hnet : net (buildAirtableURL baseId none) = ⟨true, st, tx, some recs, some ""⟩) :
    fetchPage baseId net none = Except.ok ⟨recs, none, false⟩ ∧
    (∀ fuel, 1 ≤ fuel →
      fetchAllRecords (fetchPage baseId net) fuel = some (Except.ok recs, [none])) ∧
    (∀ (fp : Option String → Except String (PageData α)) fuel r,
      fetchAllRecords fp fuel = some r → some "" ∉ r.2) ∧
    (∀ v, ( "offset", v) ∉ buildAirtableParams (some "")) := by
  have hp : fetchPage baseId net none = Except.ok ⟨recs, none, false⟩ := by
    simp [fetchPage, hnet, jsTruthyOpt]
  refine ⟨hp, ?_, ?_, ?_⟩
  · intro fuel hfuel
    match fuel, hfuel with
    | Nat.succ m, _ => simp [fetchAllRecords, fetchAllLoop, hp, jsTruthyOpt]
  · intro fp fuel r hr hmem
    rcases fetchAllLoop_mem_calls fp fuel [] none [] r hr _ hmem with h1 | h1 | h1
    · simp at h1
    · simp at h1
    · obtain ⟨t, h2, h3⟩ := h1
      injection h2 with h4
      exact h3 h4.symm
  · intro v
    simp [buildAirtableParams, jsTruthyOpt]

/-- Example network answering 200 with one record and an empty-string offset
field. -/
def emptyOffsetNet : String → NetResponse Nat := fun _ => ⟨true, 200, "", some [3], some ""⟩

/-- Witness for C10 on the concrete empty-offset network. -/
theorem emptyString_offset_terminates_witness :
    fetchPage "appC" emptyOffsetNet none = Except.ok ⟨[3], none, false⟩ ∧
    fetchAllRecords (fetchPage "appC" emptyOffsetNet) 4 = some (Except.ok [3], [none]) ∧
    ( "offset", "") ∉ buildAirtableParams (some "") := by
  have h := emptyString_offset_terminates "appC" emptyOffsetNet [3] 200 "" rfl
  exact ⟨h.1, h.2.1 4 (by decide), h.2.2.2 ""⟩

end RedOak
